import Mathlib

/-!
Formal model of the Midway naval-combat server (crates `midway` and
`enterprise`).  The `f32` arithmetic of the source is modelled over the real
numbers with decimal literals read exactly; machine integers (`u32`, `usize`)
are modelled as `Nat`.  Every call to the random number generator
(`gen_range`, `gen_bool`, `SliceRandom::choose`) is made an explicit
parameter of the embedded function, so the functions are deterministic in
their inputs.  Channels always accept a send in this single-threaded model;
the reader loop of a connection is modelled as a fold over the list of lines
it receives.
-/

namespace Midway

open Real

/-- Constant from src/midway/src/main.rs:18. -/
def TIME_ACCELERATION_FACTOR : ℝ := 4

/-- Constant from src/midway/src/main.rs:19. -/
def TPS : ℕ := 60

/-- Constant from src/midway/src/main.rs:20 (ticks before a sunk ship respawns). -/
def RESPAWN_COOLDOWN : ℕ := 120

/-- Constant from src/midway/src/main.rs:37. -/
def WATER_VISCOSITY : ℝ := 0.000001

/-- Constant from src/midway/src/main.rs:38. -/
def GRAVITY : ℝ := 9.81

/-- Constant from src/midway/src/main.rs:39. -/
def GUN_ACCURACY : ℝ := 0.01

/-- Constant from src/midway/src/main.rs:35. -/
def KRAKEN_NAME : String := "Kraken"

/-- The map radius configured at src/midway/src/main.rs:24. -/
def MAP_RADIUS_VALUE : ℝ := 2000

/-- `Variable<T>` from src/midway/src/stats.rs:8, monomorphised at `f32`:
either a single surface value or a surface/submerged pair. -/
inductive Variable where
  | surface (x : ℝ)
  | submersible (x y : ℝ)

/-- `Variable::get_value` from src/midway/src/stats.rs:15. -/
def Variable.get_value : Variable → Bool → ℝ
  | .surface x, _ => x
  | .submersible x _, false => x
  | .submersible _ y, true => y

/-- `Action` from src/midway/src/stats.rs:45. -/
inductive Action where
  | submerge
deriving DecidableEq

/-- `ShipStats` from src/midway/src/stats.rs:50.  The `Range<f32>`
`gun_reload_time` is modelled by its two endpoints (`gen_range(lo..hi)`
draws uniformly from `[lo, hi)`). -/
structure ShipStats where
  texture : ℕ
  length : ℝ
  beam : ℝ
  mass : Variable
  health : ℝ
  power : Variable
  k : ℝ
  surface_area : Variable
  screw_area : ℝ
  froude_scale_factor : ℝ
  turning_circle : ℝ
  gun_damage : ℝ
  gun_range : ℝ
  gun_reload_lo : ℝ
  gun_reload_hi : ℝ
  cooldown : ℝ
  actions : List Action

/-- `ShipStats::new` from src/midway/src/stats.rs:70 (surface ship:
health initialised to mass, cooldown to 0). -/
def ShipStats.new (texture : ℕ) (length beam mass power k surface_area
    screw_area turning_circle froude_scale_factor gun_damage gun_range
    gun_reload_lo gun_reload_hi : ℝ) (actions : List Action) : ShipStats :=
  { texture := texture
    length := length
    beam := beam
    mass := .surface mass
    health := mass
    power := .surface power
    k := k
    surface_area := .surface surface_area
    screw_area := screw_area
    froude_scale_factor := froude_scale_factor
    turning_circle := turning_circle
    gun_damage := gun_damage
    gun_range := gun_range
    gun_reload_lo := gun_reload_lo
    gun_reload_hi := gun_reload_hi
    cooldown := 0
    actions := actions }

/-- `Ship` from src/midway/src/main.rs:63. -/
structure Ship where
  coords : ℝ × ℝ
  velocity : ℝ
  angle : ℝ
  helm : ℝ
  power : ℝ
  stats : ShipStats
  sunk : Bool
  submerged : Bool
  smoke : Bool
  respawn_cooldown : ℕ

/-- `Ship::new` from src/midway/src/main.rs:77; the two `gen_range` draws
(heading of the spawn point in `[0, 2π)` and distance in `[0, 1000)`) and the
`get_random_ship()` result are explicit parameters. -/
noncomputable def Ship.new (spawnAngle spawnDistance : ℝ) (stats : ShipStats) : Ship :=
  { coords := (spawnDistance * Real.cos spawnAngle, spawnDistance * Real.sin spawnAngle)
    velocity := 0
    angle := 0
    helm := 0
    power := 0
    stats := stats
    sunk := false
    submerged := false
    smoke := false
    respawn_cooldown := RESPAWN_COOLDOWN }

/-- `Ship::current_power` from src/midway/src/main.rs:212. -/
def Ship.current_power (s : Ship) : ℝ :=
  s.power * s.stats.power.get_value s.submerged

/-- `Ship::current_mass` from src/midway/src/main.rs:216. -/
def Ship.current_mass (s : Ship) : ℝ :=
  s.stats.mass.get_value s.submerged

/-- `Ship::surface_area` from src/midway/src/main.rs:220. -/
def Ship.surface_area_val (s : Ship) : ℝ :=
  s.stats.surface_area.get_value s.submerged

/-- `f32::hypot`. -/
noncomputable def hypot (x y : ℝ) : ℝ := Real.sqrt (x ^ 2 + y ^ 2)

/-- `Ship::distance_from_origin` from src/midway/src/main.rs:139. -/
noncomputable def Ship.distance_from_origin (s : Ship) : ℝ :=
  hypot s.coords.1 s.coords.2

/-- `Ship::distance` from src/midway/src/main.rs:144. -/
noncomputable def Ship.distance (s other : Ship) : ℝ :=
  hypot (s.coords.1 - other.coords.1) (s.coords.2 - other.coords.2)

/-- `Ship::damage` from src/midway/src/main.rs:151: subtract `amount` from
health, set `sunk` when health drops to `≤ 0` (never clears it), and return
the resulting `sunk` flag. -/
noncomputable def Ship.damage (s : Ship) (amount : ℝ) : Ship × Bool :=
  let health2 := s.stats.health - amount
  let sunk2 := if health2 ≤ 0 then true else s.sunk
  ({ s with stats := { s.stats with health := health2 }, sunk := sunk2 }, sunk2)

/-- A concrete active ship used for witnesses: every field is a plain
literal so hypotheses evaluate by `norm_num`. -/
def statsW : ShipStats :=
  { texture := 2
    length := 112.5
    beam := 12
    mass := .surface 2500
    health := 2500
    power := .surface 30000
    k := 0.0263
    surface_area := .surface 903.3
    screw_area := 11.45
    froude_scale_factor := 0.295
    turning_circle := 560
    gun_damage := 125
    gun_range := 16000
    gun_reload_lo := 0.8
    gun_reload_hi := 1.2
    cooldown := 0
    actions := [] }

/-- Concrete active ship (the Destroyer template of src/midway/src/stats.rs:169). -/
def shipW : Ship :=
  { coords := (0, 0)
    velocity := 0
    angle := 0
    helm := 0
    power := 0
    stats := statsW
    sunk := false
    submerged := false
    smoke := false
    respawn_cooldown := 120 }

/-- A ship that is already sunk but still has positive health recorded: the
`sunk` flag is sticky in `Ship::damage`, which never re-examines it. -/
def shipSunkW : Ship :=
  { shipW with sunk := true, stats := { statsW with health := 10 } }

/-- C4 counterexample: the claim asserts that `damage(amount)` with
`amount < current health` always leaves `sunk == false`, but `Ship::damage`
never clears the flag: on a ship whose `sunk` flag is already set, an amount
strictly below the current health (here 1 < 10) still yields `sunk == true`. -/
theorem c4_damage_sunk_flag_counterexample :
    (1 : ℝ) < shipSunkW.stats.health ∧ (Ship.damage shipSunkW 1).1.sunk = true := by
  constructor
  · norm_num [shipSunkW, shipW, statsW]
  · have h : ¬ ((10 : ℝ) - 1 ≤ 0) := by norm_num
    simp [Ship.damage, shipSunkW, shipW, statsW, h]

/-- C4 (amended): `damage(amount)` subtracts `amount` from health; if
`amount ≥ current health` the result is sunk with health `≤ 0`; if
`amount < current health` the `sunk` flag is simply unchanged (so it stays
`false` exactly when the ship was not already sunk); the returned boolean is
the resulting `sunk` flag. -/
theorem c4_damage_spec (s : Ship) (amount : ℝ) :
    (Ship.damage s amount).1.stats.health = s.stats.health - amount ∧
    (s.stats.health ≤ amount →
      (Ship.damage s amount).1.sunk = true ∧ (Ship.damage s amount).1.stats.health ≤ 0) ∧
    (amount < s.stats.health → (Ship.damage s amount).1.sunk = s.sunk) ∧
    (Ship.damage s amount).2 = (Ship.damage s amount).1.sunk := by
  refine ⟨rfl, fun hle => ?_, fun hlt => ?_, rfl⟩
  · have h : s.stats.health - amount ≤ 0 := by linarith
    simp [Ship.damage, h]
  · have h : ¬ (s.stats.health - amount ≤ 0) := by linarith
    simp [Ship.damage, h]

/-- Witness for `c4_damage_spec` at the concrete Destroyer ship and amount 5. -/
theorem c4_damage_spec_witness :
    (5 : ℝ) < shipW.stats.health ∧ (Ship.damage shipW 5).1.sunk = shipW.sunk := by
  have h : (5 : ℝ) < shipW.stats.health := by norm_num [shipW, statsW]
  exact ⟨h, (c4_damage_spec shipW 5).2.2.1 h⟩

/-! ### Connection layer (src/midway/src/client.rs) -/

/-- `ClientMessage` from src/midway/src/client.rs:9.  Note the source
declares a `Weapon(u32)` variant while src/midway/src/main.rs:291 pattern
matches a variant named `Action` — the two files disagree; this type follows
client.rs, the file the reader thread is written in.  The float payloads of
`Sail` are the exactly-parsed decimals, modelled as rationals. -/
inductive ClientMessage where
  | sail (power helm : ℚ)
  | anchor
  | smoke
  | weapon (idx : ℕ)
deriving DecidableEq

/-- Decimal digit run parser: `none` on an empty or non-digit run
(the failure behaviour of Rust `str::parse` on such input). -/
def parseNatCore : List Char → Option ℕ
  | [] => none
  | cs => cs.foldl (fun acc c =>
      acc.bind fun n => if c.isDigit then some (10 * n + (c.toNat - 48)) else none)
      (some 0)

/-- Split a character list at every dot. -/
def splitAtDots : List Char → List (List Char)
  | [] => [[]]
  | c :: rest =>
    if c = '.' then [] :: splitAtDots rest
    else
      match splitAtDots rest with
      | h :: t => (c :: h) :: t
      | [] => [[c]]

/-- Unsigned decimal literal, as the exact rational it denotes. -/
def parseUnsigned : List Char → Option ℚ
  | cs =>
    match splitAtDots cs with
    | [ip] => (parseNatCore ip).map (fun n => (n : ℚ))
    | [ip, fp] =>
      match parseNatCore ip, parseNatCore fp with
      | some n, some f => some ((n : ℚ) + (f : ℚ) / (10 ^ fp.length))
      | _, _ => none
    | _ => none

/-- Model of Rust `str::parse::<f32>` restricted to plain signed decimal
literals — the only forms the reference client emits; anything else fails,
as in Rust. -/
def parseNum (s : String) : Option ℚ :=
  match s.toList with
  | '-' :: rest => (parseUnsigned rest).map Neg.neg
  | '+' :: rest => parseUnsigned rest
  | cs => parseUnsigned cs

/-- Helper for `splitWhitespace`: `acc` is the current in-progress word,
reversed. -/
def splitWSAux : List Char → List Char → List String
  | [], acc => if acc.isEmpty then [] else [String.mk acc.reverse]
  | c :: cs, acc =>
    if c.isWhitespace then
      if acc.isEmpty then splitWSAux cs [] else String.mk acc.reverse :: splitWSAux cs []
    else splitWSAux cs (c :: acc)

/-- Rust `str::split_whitespace`: the non-empty maximal runs of
non-whitespace characters. -/
def splitWhitespace (s : String) : List String :=
  splitWSAux s.toList []

/-- Outcome of the reader loop body in `process_client`
(src/midway/src/client.rs:84) on one line: forward a command, log the line
and keep going (unknown first word or empty line), or return from
`process_client` (the `?` operator on a failed argument parse), which ends
the reader thread. -/
inductive LineResult where
  | send (m : ClientMessage)
  | skip (log : String)
  | exit
deriving DecidableEq

/-- The match over one line's words in `process_client`
(src/midway/src/client.rs:85-99).  A missing or unparsable argument hits
the `?` operator and returns from the function (`.exit`); an unknown first
word or an empty line is logged and the loop continues (`.skip`). -/
def processLine (line : String) : LineResult :=
  match splitWhitespace line with
  | [] => .skip "Empty message from client"
  | w :: rest =>
    if w = "sail" then
      match rest with
      | p :: h :: _ =>
        match parseNum p with
        | none => .exit
        | some pw =>
          match parseNum h with
          | none => .exit
          | some hl => .send (.sail pw hl)
      | _ => .exit
    else if w = "anchor" then .send .anchor
    else if w = "smoke" then .send .smoke
    else if w = "weapon" then
      match rest with
      | i :: _ =>
        match parseNatCore i.toList with
        | none => .exit
        | some n => .send (.weapon n)
      | [] => .exit
    else .skip ("Bad message " ++ w ++ " from client")

/-- The reader loop of `process_client` (src/midway/src/client.rs:78-103)
over the list of lines received after the handshake: the commands forwarded
on the channel, paired with `true` iff the loop returned early on a
malformed argument (ending the reader thread before consuming the rest). -/
def processClient : List String → List ClientMessage × Bool
  | [] => ([], false)
  | l :: ls =>
    match processLine l with
    | .send m => ((processClient ls).1.cons m, (processClient ls).2)
    | .skip _ => processClient ls
    | .exit => ([], true)

/-- C1 counterexample: a `sail` line whose first argument fails to parse
does not get logged-and-skipped — it returns from `process_client`, ending
the reader thread (so the session is torn down via channel disconnect) and
dropping all subsequent lines: the following `anchor` command, which alone
would be forwarded, is never processed. -/
theorem c1_malformed_arg_kills_reader :
    processLine "sail x 0" = .exit ∧
    processClient ["sail x 0", "anchor"] = ([], true) ∧
    processClient ["anchor"] = ([.anchor], false) := by
  refine ⟨by decide, by decide, by decide⟩

/-- C1 (amended): only a line whose first word is unknown (not one of
`sail`, `anchor`, `smoke`, `weapon`) is logged and skipped, with the reader
continuing on subsequent lines and the session kept; a recognised command
with a missing or unparsable argument instead terminates the reader thread
(see the counterexample). -/
theorem c1_unknown_word_skipped (l : String) (w : String) (rest : List String)
    (ls : List String) (hw : splitWhitespace l = w :: rest)
    (hunk : w ∉ (["sail", "anchor", "smoke", "weapon"] : List String)) :
    processLine l = .skip ("Bad message " ++ w ++ " from client") ∧
    processClient (l :: ls) = processClient ls := by
  simp only [List.mem_cons, List.mem_singleton, not_or] at hunk
  obtain ⟨h1, h2, h3, h4⟩ := hunk
  have hline : processLine l = .skip ("Bad message " ++ w ++ " from client") := by
    simp [processLine, hw, h1, h2, h3, h4]
  exact ⟨hline, by simp [processClient, hline]⟩

/-- Witness for `c1_unknown_word_skipped`: the unknown command `fire 1`
is logged and skipped, and the reader goes on to process `anchor`. -/
theorem c1_unknown_word_skipped_witness :
    splitWhitespace "fire 1" = ["fire", "1"] ∧
    processLine "fire 1" = .skip "Bad message fire from client" ∧
    processClient ["fire 1", "anchor"] = processClient ["anchor"] := by
  have hw : splitWhitespace "fire 1" = ["fire", "1"] := by decide
  have h := c1_unknown_word_skipped "fire 1" "fire" ["1"] ["anchor"] hw (by decide)
  exact ⟨hw, h.1, h.2⟩

/-- C2: the spec's `action <index>` command never reaches the engine.  The
reader of src/midway/src/client.rs:85-99 recognises only `sail`, `anchor`,
`smoke` and `weapon`; a post-handshake line `action 1` falls to the
catch-all arm, is logged as a bad message, and no command is forwarded —
while the engine side (src/midway/src/main.rs:291) pattern-matches a
`ClientMessage::Action` variant that client.rs never declares (it declares
`Weapon`), so the two halves of the repository are inconsistent and the
1-based special-action dispatch is unreachable from the wire. -/
theorem c2_action_line_dropped :
    processLine "action 1" = .skip "Bad message action from client" ∧
    processClient ["action 1"] = ([], false) := by
  exact ⟨by decide, by decide⟩

/-! ### Ship physics (src/midway/src/main.rs:98-131) -/

/-- `cube_root` from src/midway/src/main.rs:57: real cube root that works on
negative numbers (`abs` root with the argument's sign copied back). -/
noncomputable def cubeRoot (x : ℝ) : ℝ :=
  if x < 0 then -(|x| ^ ((1 : ℝ) / 3)) else |x| ^ ((1 : ℝ) / 3)

/-- `f32::copysign`: the magnitude of `x` with the sign of `y` (a non-NaN,
non-negative-zero model: `y = 0` counts as positive, as `+0.0` does). -/
noncomputable def copysign (x y : ℝ) : ℝ := if y < 0 then -|x| else |x|

/-- `f32::atan2`: `atan2 y x` is the angle of the vector `(x, y)`.  The
source always calls it as `a.atan2 b = atan2 a b`. -/
noncomputable def atan2 (y x : ℝ) : ℝ :=
  if 0 < x then Real.arctan (y / x)
  else if x < 0 then
    if 0 ≤ y then Real.arctan (y / x) + π else Real.arctan (y / x) - π
  else
    if 0 < y then π / 2 else if y < 0 then -(π / 2) else 0

/-- The Reynolds number of `Ship::step` (src/midway/src/main.rs:101). -/
noncomputable def Ship.reynolds (s : Ship) : ℝ :=
  s.stats.length * |s.velocity| / WATER_VISCOSITY

/-- The skin-friction coefficient `c_f` of `Ship::step`
(src/midway/src/main.rs:102). -/
noncomputable def Ship.cF (s : Ship) : ℝ :=
  0.075 / (Real.logb 10 s.reynolds - 2) ^ 2

/-- The total resistance coefficient `c_total` of `Ship::step`
(src/midway/src/main.rs:103-108): skin friction times the form factor, plus
a wave-resistance term while surfaced. -/
noncomputable def Ship.cTotal (s : Ship) : ℝ :=
  let base := s.cF * (1 + s.stats.k)
  if s.submerged then base
  else base + s.stats.froude_scale_factor *
    (s.velocity / Real.sqrt (GRAVITY * s.stats.length)) ^ 6

/-- The hull resistance `r_total` of `Ship::step`
(src/midway/src/main.rs:109). -/
noncomputable def Ship.rTotal (s : Ship) : ℝ :=
  s.cTotal * 0.5 * s.velocity * |s.velocity| * s.surface_area_val

/-- The screw outflow velocity `v_out` of `Ship::step`
(src/midway/src/main.rs:110-125): the three branches over the sign of the
cubic discriminant `s = q² - v⁶/27` (`total_cmp` on non-NaN reals is the
usual trichotomy). -/
noncomputable def Ship.vOut (s : Ship) : ℝ :=
  let q := s.current_power / s.stats.screw_area
  let sd := q ^ 2 - s.velocity ^ 6 / 27
  if sd < 0 then
    copysign (2 * |s.velocity| / Real.sqrt 3) q *
      Real.cos (Real.arccos (|q| * Real.sqrt 27 / |s.velocity| ^ 3) / 3)
  else if 0 < sd then
    cubeRoot (q + Real.sqrt sd) + cubeRoot (q - Real.sqrt sd)
  else 2 * cubeRoot q

/-- The screw thrust of `Ship::step` (src/midway/src/main.rs:126). -/
noncomputable def Ship.thrust (s : Ship) : ℝ :=
  s.stats.screw_area * s.vOut * |s.vOut - s.velocity|

/-- `Ship::step` from src/midway/src/main.rs:98: gun cooldown decays, the
heading integrates the helm, net thrust minus resistance over mass
integrates the velocity, and the *new* velocity and heading integrate the
position (the source mutates `self.velocity` and `self.angle` before using
them in the coordinate update). -/
noncomputable def Ship.step (s : Ship) (dt : ℝ) : Ship :=
  let angle2 := s.angle + dt * s.helm * s.velocity * 2 / s.stats.turning_circle
  let velocity2 := s.velocity + (s.thrust - s.rTotal) * dt / s.current_mass
  { s with
    stats := { s.stats with cooldown := s.stats.cooldown - dt }
    angle := angle2
    velocity := velocity2
    coords := (s.coords.1 + velocity2 * dt * Real.sin angle2,
               s.coords.2 - velocity2 * dt * Real.cos angle2) }

/-! ### Combat resolver (src/midway/src/main.rs:150-230) -/

/-- `Ship::random_location` from src/midway/src/main.rs:160: a random point
on the ship's oriented hull rectangle; the two draws
(`gen_range(-length/2..length/2)` and `gen_range(-beam/2..beam/2)`) are the
explicit offset parameters. -/
noncomputable def Ship.random_location (s : Ship) (lenOff beamOff : ℝ) : ℝ × ℝ :=
  (s.coords.1 + Real.sin s.angle * lenOff + Real.cos s.angle * beamOff,
   s.coords.2 - Real.cos s.angle * lenOff + Real.sin s.angle * beamOff)

/-- `Ship::is_hit` from src/midway/src/main.rs:174: whether the point lies
inside the ship's oriented hull rectangle. -/
noncomputable def Ship.is_hit (s : Ship) (x y : ℝ) : Prop :=
  let xr := x - s.coords.1
  let yr := y - s.coords.2
  let dist := hypot xr yr
  let ang := atan2 xr yr - s.angle
  |dist * Real.sin ang| ≤ s.stats.beam / 2 ∧ |dist * Real.cos ang| ≤ s.stats.length / 2

/-- `ShootingState` from src/midway/src/main.rs:225. -/
inductive ShootingState where
  | notFired
  | miss (coords : ℝ × ℝ) (damage : ℝ)
  | hit (coords : ℝ × ℝ) (damage : ℝ)
  | sunk (coords : ℝ × ℝ) (damage : ℝ)

/-- The six random draws of one `Ship::shoot` call
(src/midway/src/main.rs:185-210), in source order: the target aim point
offsets, the range jitter from `gen_range(-GUN_ACCURACY..GUN_ACCURACY)`, the
bearing jitter from the same range, the damage roll from
`gen_range(0.5..1.5)` and the cooldown draw from
`gen_range(gun_reload_time)`. -/
structure ShootRng where
  lenOff : ℝ
  beamOff : ℝ
  distJitter : ℝ
  angleJitter : ℝ
  damageRoll : ℝ
  cooldownDraw : ℝ

open Classical in
/-- `Ship::shoot` from src/midway/src/main.rs:185: fires only when the
attacker's cooldown has decayed to `≤ 0`; the perturbed impact point is
classified against the target's hull, the attacker's cooldown is reset to
the reload draw, and a hit applies the damage roll to the target.  Returns
(attacker, target, outcome). -/
noncomputable def Ship.shoot (s t : Ship) (r : ShootRng) : Ship × Ship × ShootingState :=
  if s.stats.cooldown ≤ 0 then
    let tl := t.random_location r.lenOff r.beamOff
    let xOffset := tl.1 - s.coords.1
    let yOffset := tl.2 - s.coords.2
    let dist := hypot xOffset yOffset * (1 - r.distJitter)
    let ang := atan2 xOffset yOffset + r.angleJitter
    let cx := s.coords.1 + dist * Real.sin ang
    let cy := s.coords.2 + dist * Real.cos ang
    let dmg := s.stats.gun_damage * r.damageRoll
    let s2 := { s with stats := { s.stats with cooldown := r.cooldownDraw } }
    if t.is_hit cx cy then
      let dres := t.damage dmg
      if dres.2 then (s2, dres.1, .sunk (cx, cy) dmg)
      else (s2, dres.1, .hit (cx, cy) dmg)
    else (s2, t, .miss (cx, cy) dmg)
  else (s, t, .notFired)

/-- C3: `shoot` never fires while the cooldown is positive — it returns
`NotFired` and leaves attacker and target untouched; when it does fire
(cooldown `≤ 0`) the attacker's cooldown is reset to the reload draw, which
lies in `[gun_reload_lo, gun_reload_hi)`, and since the catalog's reload
ranges are positive the ship cannot fire again (any immediate second call
returns `NotFired` with both ships unchanged) until that cooldown has
decayed back to `≤ 0`. -/
theorem c3_shoot_cooldown_gate (s t : Ship) (r : ShootRng)
    (hlo : 0 < s.stats.gun_reload_lo)
    (hdraw : s.stats.gun_reload_lo ≤ r.cooldownDraw ∧
      r.cooldownDraw < s.stats.gun_reload_hi) :
    (0 < s.stats.cooldown → Ship.shoot s t r = (s, t, .notFired)) ∧
    (s.stats.cooldown ≤ 0 →
      (Ship.shoot s t r).1.stats.cooldown = r.cooldownDraw ∧
      0 < (Ship.shoot s t r).1.stats.cooldown ∧
      ∀ t2 r2, Ship.shoot (Ship.shoot s t r).1 t2 r2 =
        ((Ship.shoot s t r).1, t2, .notFired)) := by
  constructor
  · intro hpos
    have h : ¬ s.stats.cooldown ≤ 0 := not_le.mpr hpos
    simp only [Ship.shoot, h, if_false]
  · intro hle
    have hatt : (Ship.shoot s t r).1 =
        { s with stats := { s.stats with cooldown := r.cooldownDraw } } := by
      simp only [Ship.shoot, hle, if_true]
      split
      · split <;> rfl
      · rfl
    have hcd : (Ship.shoot s t r).1.stats.cooldown = r.cooldownDraw := by
      rw [hatt]
    have hcdpos : 0 < (Ship.shoot s t r).1.stats.cooldown := by
      rw [hcd]; exact lt_of_lt_of_le hlo hdraw.1
    refine ⟨hcd, hcdpos, fun t2 r2 => ?_⟩
    rw [hatt]
    have h3 : ¬ (r.cooldownDraw ≤ 0) := not_le.mpr (lt_of_lt_of_le hlo hdraw.1)
    simp [Ship.shoot, h3]

/-- Witness for `c3_shoot_cooldown_gate`: the concrete Destroyer with its
cooldown at 0 and a reload draw of 1 inside `[0.8, 1.2)`. -/
theorem c3_shoot_cooldown_gate_witness :
    (0 < shipW.stats.gun_reload_lo ∧ shipW.stats.gun_reload_lo ≤ (1 : ℝ) ∧
      (1 : ℝ) < shipW.stats.gun_reload_hi ∧ shipW.stats.cooldown ≤ 0) ∧
    (Ship.shoot shipW shipW
      { lenOff := 0, beamOff := 0, distJitter := 0, angleJitter := 0,
        damageRoll := 1, cooldownDraw := 1 }).1.stats.cooldown = 1 := by
  have h1 : 0 < shipW.stats.gun_reload_lo := by norm_num [shipW, statsW]
  have h2 : shipW.stats.gun_reload_lo ≤ (1 : ℝ) := by norm_num [shipW, statsW]
  have h3 : (1 : ℝ) < shipW.stats.gun_reload_hi := by norm_num [shipW, statsW]
  have h4 : shipW.stats.cooldown ≤ 0 := by norm_num [shipW, statsW]
  exact ⟨⟨h1, h2, h3, h4⟩,
    ((c3_shoot_cooldown_gate shipW shipW _ h1 ⟨h2, h3⟩).2 h4).1⟩

/-! ### Engine tick: per-ship phases (src/midway/src/main.rs:263-482) -/

/-- The sunk gate at the head of the per-ship tick body
(src/midway/src/main.rs:326-335).  A sunk ship takes the `continue` path
(`Sum.inl`): it is excluded from the kraken/combat/physics/hazard processing
that follows, and either respawns as the freshly generated ship (when its
counter is 0) or merely decrements the counter.  A non-sunk ship falls
through (`Sum.inr`) to the rest of the tick. -/
def tickSunkPhase (s fresh : Ship) : Ship ⊕ Ship :=
  if s.sunk then
    .inl (if s.respawn_cooldown = 0 then fresh
          else { s with respawn_cooldown := s.respawn_cooldown - 1 })
  else .inr s

/-- C5: a sunk ship is excluded from the rest of the tick (the result is the
`continue` arm); while its respawn counter is nonzero only that counter is
decremented, every other field untouched; exactly when the counter has
reached zero it is replaced by the freshly generated `Ship::new` ship, which
is not sunk, has a full respawn counter, and carries the freshly drawn stats
and spawn position. -/
theorem c5_respawn_spec (s : Ship) (spawnAngle spawnDistance : ℝ) (st : ShipStats)
    (hs : s.sunk = true) :
    (s.respawn_cooldown ≠ 0 →
      tickSunkPhase s (Ship.new spawnAngle spawnDistance st) =
        .inl { s with respawn_cooldown := s.respawn_cooldown - 1 }) ∧
    (s.respawn_cooldown = 0 →
      tickSunkPhase s (Ship.new spawnAngle spawnDistance st) =
        .inl (Ship.new spawnAngle spawnDistance st)) ∧
    (Ship.new spawnAngle spawnDistance st).sunk = false ∧
    (Ship.new spawnAngle spawnDistance st).respawn_cooldown = RESPAWN_COOLDOWN ∧
    (Ship.new spawnAngle spawnDistance st).stats = st ∧
    (Ship.new spawnAngle spawnDistance st).coords =
      (spawnDistance * Real.cos spawnAngle, spawnDistance * Real.sin spawnAngle) := by
  refine ⟨fun hnz => ?_, fun hz => ?_, rfl, rfl, rfl, rfl⟩
  · simp [tickSunkPhase, hs, hnz]
  · simp [tickSunkPhase, hs, hz]

/-- Witness for `c5_respawn_spec`: a sunk Destroyer with 7 ticks left only
decrements its counter; with 0 ticks left it becomes the fresh ship. -/
theorem c5_respawn_spec_witness :
    ((({ shipW with sunk := true, respawn_cooldown := 7 } : Ship).sunk = true ∧
       ({ shipW with sunk := true, respawn_cooldown := 7 } : Ship).respawn_cooldown ≠ 0) ∧
     tickSunkPhase { shipW with sunk := true, respawn_cooldown := 7 } (Ship.new 0 0 statsW) =
       .inl { shipW with sunk := true, respawn_cooldown := 6 }) ∧
    tickSunkPhase { shipW with sunk := true, respawn_cooldown := 0 } (Ship.new 0 0 statsW) =
      .inl (Ship.new 0 0 statsW) := by
  constructor
  · constructor
    · exact ⟨rfl, by norm_num⟩
    · exact (c5_respawn_spec { shipW with sunk := true, respawn_cooldown := 7 } 0 0 statsW
        rfl).1 (by norm_num)
  · exact (c5_respawn_spec { shipW with sunk := true, respawn_cooldown := 0 } 0 0 statsW
      rfl).2.1 rfl

/-- The `ClientMessage::Sail` arm of the engine's inbound-queue drain
(src/midway/src/main.rs:279-282): the stored power input is
`power * |power|` and the stored helm is the helm verbatim — no clamping of
either. -/
noncomputable def applySail (s : Ship) (power helm : ℝ) : Ship :=
  { s with power := power * |power|, helm := helm }

/-- C8 counterexample: the engine performs no range validation, so a client
that sends `sail 2 3` leaves the ship with a stored power input of 4 (not in
`[-0.5, 1]`) and a helm of 3 (not in `[-1, 1]`). -/
theorem c8_sail_no_clamp_counterexample :
    (applySail shipW 2 3).power = 4 ∧ (applySail shipW 2 3).helm = 3 ∧
    1 < (applySail shipW 2 3).power ∧ 1 < (applySail shipW 2 3).helm := by
  have hp : (applySail shipW 2 3).power = 4 := by
    simp [applySail]
    norm_num [abs_of_nonneg]
  have hh : (applySail shipW 2 3).helm = 3 := rfl
  refine ⟨hp, hh, ?_, ?_⟩
  · rw [hp]; norm_num
  · rw [hh]; norm_num

/-- C8 (amended): the engine stores the helm verbatim and the power input as
`power * |power|`, with no clamping; the stored inputs lie in the documented
ranges (helm in `[-1, 1]`, power in `[-0.5, 1]`) exactly when the client
keeps its sent values there — which the reference client does
(src/enterprise/src/main.rs:194 clamps power to `[-0.5, 1]` and the helm
keys produce only -1, 0 or 1) — not for arbitrary floats on the wire. -/
theorem c8_sail_range_spec (s : Ship) (p h : ℝ)
    (hp1 : -(1 / 2) ≤ p) (hp2 : p ≤ 1) (hh1 : -1 ≤ h) (hh2 : h ≤ 1) :
    (applySail s p h).power = p * |p| ∧
    -(1 / 2) ≤ (applySail s p h).power ∧ (applySail s p h).power ≤ 1 ∧
    (applySail s p h).helm = h ∧
    -1 ≤ (applySail s p h).helm ∧ (applySail s p h).helm ≤ 1 := by
  have hpow : (applySail s p h).power = p * |p| := rfl
  have hhelm : (applySail s p h).helm = h := rfl
  refine ⟨hpow, ?_, ?_, hhelm, by rw [hhelm]; exact hh1, by rw [hhelm]; exact hh2⟩
  · rw [hpow]
    rcases le_or_lt 0 p with hp0 | hp0
    · rw [abs_of_nonneg hp0]; nlinarith
    · rw [abs_of_neg hp0]; nlinarith
  · rw [hpow]
    rcases le_or_lt 0 p with hp0 | hp0
    · rw [abs_of_nonneg hp0]; nlinarith
    · rw [abs_of_neg hp0]; nlinarith

/-- Witness for `c8_sail_range_spec` at full ahead and hard starboard
(`sail 1 1`, the reference client's Z plus D keys). -/
theorem c8_sail_range_spec_witness :
    (-(1 / 2) ≤ (1 : ℝ) ∧ (1 : ℝ) ≤ 1 ∧ -1 ≤ (1 : ℝ)) ∧
    (applySail shipW 1 1).power ≤ 1 ∧ -1 ≤ (applySail shipW 1 1).helm := by
  refine ⟨⟨by norm_num, le_refl 1, by norm_num⟩, ?_, ?_⟩
  · exact (c8_sail_range_spec shipW 1 1 (by norm_num) le_rfl (by norm_num) le_rfl).2.2.1
  · exact (c8_sail_range_spec shipW 1 1 (by norm_num) le_rfl (by norm_num) le_rfl).2.2.2.2.1

/-! ### Join handling (src/midway/src/main.rs:232-251) -/

/-- A connection's session record, `ClientData` from
src/midway/src/client.rs:16: the outbound and inbound channels are
identified by opaque tokens, plus the session's ship. -/
structure ClientData where
  tx : ℕ
  rx : ℕ
  ship : Ship

/-- `handle_join` from src/midway/src/main.rs:232, acting on the connection
table (a name-keyed map, modelled as an association list): a fresh ship is
generated for the joining connection, the `radius` greeting is written to
the joining socket, and the session is added with
`connections.entry(name).or_insert(client)` — which keeps the existing entry
untouched and discards the new session when the name is already a key.
Returns the new table and the lines written to the joining socket. -/
noncomputable def handleJoin (conns : List (String × ClientData)) (name : String)
    (txId rxId : ℕ) (spawnAngle spawnDistance : ℝ) (st : ShipStats) :
    List (String × ClientData) × List String :=
  let client : ClientData :=
    { tx := txId, rx := rxId, ship := Ship.new spawnAngle spawnDistance st }
  (if (conns.lookup name).isSome then conns else conns ++ [(name, client)],
   ["radius 2000\n"])

/-- C10: joining with a name that is already a key leaves the connection
table exactly as it was — the existing session and its ship are untouched
and the new session is discarded — so names remain unique keys. -/
theorem c10_duplicate_join_spec (conns : List (String × ClientData)) (name : String)
    (txId rxId : ℕ) (spawnAngle spawnDistance : ℝ) (st : ShipStats) (c : ClientData)
    (hmem : conns.lookup name = some c) :
    (handleJoin conns name txId rxId spawnAngle spawnDistance st).1 = conns ∧
    (handleJoin conns name txId rxId spawnAngle spawnDistance st).1.lookup name = some c ∧
    ((conns.map Prod.fst).Nodup →
      ((handleJoin conns name txId rxId spawnAngle spawnDistance st).1.map Prod.fst).Nodup) := by
  have h : (conns.lookup name).isSome := by rw [hmem]; rfl
  have heq : (handleJoin conns name txId rxId spawnAngle spawnDistance st).1 = conns := by
    simp [handleJoin, h]
  exact ⟨heq, by rw [heq]; exact hmem, fun hnd => by rw [heq]; exact hnd⟩

/-- A concrete one-entry connection table for the join witness. -/
def connsW : List (String × ClientData) :=
  [("Nelson", { tx := 0, rx := 1, ship := shipW })]

/-- Witness for `c10_duplicate_join_spec`: a second `Nelson` join leaves the
table unchanged. -/
theorem c10_duplicate_join_spec_witness :
    connsW.lookup "Nelson" = some { tx := 0, rx := 1, ship := shipW } ∧
    (handleJoin connsW "Nelson" 5 6 0 0 statsW).1 = connsW := by
  have hmem : connsW.lookup "Nelson" = some { tx := 0, rx := 1, ship := shipW } := rfl
  exact ⟨hmem, (c10_duplicate_join_spec connsW "Nelson" 5 6 0 0 statsW _ hmem).1⟩

/-! ### Boss (kraken) phase (src/midway/src/main.rs:503-531) -/

/-- The `sunk <name>` broadcast line. -/
def sunkMsg (name : String) : String := "sunk " ++ name ++ "\n"

/-- Replace the ship stored under a name in the connection table. -/
def updateAssoc : List (String × Ship) → String → Ship → List (String × Ship)
  | [], _, _ => []
  | (n, s) :: rest, name, ship =>
    if n = name then (n, ship) :: rest else (n, s) :: updateAssoc rest name ship

/-- Number of boss entities a world's `Option<Ship>` slot holds. -/
def bossCount : Option Ship → ℕ
  | none => 0
  | some _ => 1

/-- The kraken block at the end of each tick (src/midway/src/main.rs:503):
the boss's gun cooldown decays; if it is sunk it despawns with the respawn
timer set to `current_mass / 50` and a `sunk Kraken` line is sent to every
connection; otherwise, if it has a target this tick it shoots one chosen at
random (`chooseIdx` parameterises `SliceRandom::choose`), broadcasting
`sunk <target>` if the shot sinks the target; otherwise (no targets) it
despawns with the timer set to `(current_mass - health) / 100` and the same
`sunk Kraken` broadcast.  The connection table carries each session's ship;
the output is `none` exactly when the source would panic (a chosen target
missing from the table).  Result: (boss slot, boss respawn timer, table,
broadcast lines as recipient-message pairs). -/
noncomputable def krakenPhase (ko : Option Ship) (oldCd : ℝ) (targets : List String)
    (conns : List (String × Ship)) (dt : ℝ) (chooseIdx : ℕ) (r : ShootRng) :
    Option (Option Ship × ℝ × List (String × Ship) × List (String × String)) :=
  match ko with
  | none => some (none, oldCd, conns, [])
  | some k =>
    let k1 : Ship := { k with stats := { k.stats with cooldown := k.stats.cooldown - dt } }
    if k1.sunk then
      some (none, k1.current_mass / 50, conns,
        conns.map fun c => (c.1, sunkMsg KRAKEN_NAME))
    else
      match targets with
      | [] =>
        some (none, (k1.current_mass - k1.stats.health) / 100, conns,
          conns.map fun c => (c.1, sunkMsg KRAKEN_NAME))
      | t0 :: ts =>
        let target := (t0 :: ts).getD (chooseIdx % (t0 :: ts).length) t0
        match conns.lookup target with
        | none => none
        | some tship =>
          let res := k1.shoot tship r
          let conns2 := updateAssoc conns target res.2.1
          let msgs :=
            match res.2.2 with
            | .sunk _ _ => conns.map fun c => (c.1, sunkMsg target)
            | _ => []
          some (some res.1, oldCd, conns2, msgs)

/-- C6: the world holds at most one boss (its slot is an `Option`), and on
either despawn cause exactly one `sunk Kraken` line goes to each connection;
the respawn timer is set by two distinct formulas — `current_mass / 50` when
the boss sank, and `(current_mass - health) / 100` (mass minus remaining
health being the damage taken) when it had no targets this tick. -/
theorem c6_kraken_despawn_spec (k : Ship) (oldCd : ℝ) (targets : List String)
    (conns : List (String × Ship)) (dt : ℝ) (chooseIdx : ℕ) (r : ShootRng) :
    (∀ w : Option Ship, bossCount w ≤ 1) ∧
    (k.sunk = true →
      krakenPhase (some k) oldCd targets conns dt chooseIdx r =
        some (none, k.current_mass / 50, conns,
          conns.map fun c => (c.1, sunkMsg KRAKEN_NAME))) ∧
    (k.sunk = false → targets = [] →
      krakenPhase (some k) oldCd targets conns dt chooseIdx r =
        some (none, (k.current_mass - k.stats.health) / 100, conns,
          conns.map fun c => (c.1, sunkMsg KRAKEN_NAME))) := by
  refine ⟨fun w => ?_, fun hk => ?_, fun hk hts => ?_⟩
  · cases w <;> simp [bossCount]
  · simp only [krakenPhase]
    rw [if_pos hk]
    rfl
  · subst hts
    simp only [krakenPhase]
    rw [if_neg (by rw [hk]; exact Bool.false_ne_true)]
    simp [Ship.current_mass]

/-- Witness for `c6_kraken_despawn_spec`: a sunk 2500-tonne boss despawns
with timer 50 and one `sunk Kraken` line for the single connection. -/
theorem c6_kraken_despawn_spec_witness :
    ({ shipW with sunk := true } : Ship).sunk = true ∧
    krakenPhase (some { shipW with sunk := true }) 0 [] [("Nelson", shipW)] 1 0
      { lenOff := 0, beamOff := 0, distJitter := 0, angleJitter := 0,
        damageRoll := 1, cooldownDraw := 1 } =
      some (none, 50, [("Nelson", shipW)], [("Nelson", "sunk Kraken\n")]) := by
  refine ⟨rfl, ?_⟩
  have h := (c6_kraken_despawn_spec { shipW with sunk := true } 0 []
    [("Nelson", shipW)] 1 0
    { lenOff := 0, beamOff := 0, distJitter := 0, angleJitter := 0,
      damageRoll := 1, cooldownDraw := 1 }).2.1 rfl
  rw [h]
  norm_num [Ship.current_mass, shipW, statsW, Variable.get_value, sunkMsg, KRAKEN_NAME]
  decide

/-! ### Ocean border hazard (src/midway/src/main.rs:390-470) -/

/-- `OceanData` from src/midway/src/main.rs:47. -/
structure OceanData where
  kraken_spawn_chance : ℝ
  mine_spawn_chance : ℝ
  mine_damage : ℝ
  scale : ℝ
  intensity : ℝ
  dps : ℝ

/-- The ocean configuration of `MAP_RADIUS` (src/midway/src/main.rs:24). -/
def midwayOcean : OceanData :=
  { kraken_spawn_chance := 0.01
    mine_spawn_chance := 0.0001
    mine_damage := 2000
    scale := 500
    intensity := 18
    dps := 5 }

/-- The random draws of one ship's border processing, in source order:
the outcome of the mine `gen_bool`, the mine's hull-offset and damage rolls,
the outcome of the kraken-spawn `gen_bool`, and the spawn angle and
`gen_range(40.0..80.0)` distance roll. -/
structure OceanRng where
  mineTrig : Bool
  mineLenOff : ℝ
  mineBeamOff : ℝ
  mineDmgRoll : ℝ
  krakenTrig : Bool
  krakenAngle : ℝ
  krakenDistRoll : ℝ

open Classical in
/-- The `BorderType::Ocean` arm of the border check for one ship
(src/midway/src/main.rs:390-470), after `Ship::step` has run.  Within the
radius nothing happens.  Beyond it: continuous damage scaled by
`(d - r)/(d - r + scale)` (an early `continue` if that sinks the ship), an
inward recentering of the coordinates while the ship is mobile, a possible
mine detonation, and a possible kraken spawn (only when no kraken exists and
its timer has elapsed, and kept only if the spawn point is itself beyond the
radius, immobilising the ship).  The splash/wake particle broadcasts are
visual-only and not modelled.  Result: (ship, whether the ship's name was
pushed onto the tick's `sunk` broadcast list, spawned kraken). -/
noncomputable def oceanBorder (data : OceanData) (radius dt : ℝ)
    (mobile krakenAbsent : Bool) (krakenCooldown : ℝ) (s : Ship) (rng : OceanRng) :
    Ship × Bool × Option Ship :=
  let sd := s.distance_from_origin
  if radius < sd then
    let scaleFactor := (sd - radius) / (sd - radius + data.scale)
    let dres := s.damage (data.dps * scaleFactor * dt)
    if dres.2 then (dres.1, true, none)
    else
      let s2 :=
        if mobile then
          let sf2 := data.intensity * scaleFactor / sd
          { dres.1 with
            coords := (dres.1.coords.1 - dres.1.coords.1 * sf2 * dt,
                       dres.1.coords.2 - dres.1.coords.2 * sf2 * dt) }
        else dres.1
      let mineRes :=
        if rng.mineTrig then
          let dmg := data.mine_damage * rng.mineDmgRoll
          let mres := s2.damage dmg
          ({ mres.1 with
             velocity := mres.1.velocity * (mres.1.current_mass / (mres.1.current_mass + dmg)) },
           mres.2)
        else (s2, false)
      let s3 := mineRes.1
      if krakenAbsent = true ∧ krakenCooldown ≤ 0 ∧ rng.krakenTrig = true then
        let spawnScale := (sd - radius) / data.scale + 1
        let sfq := Real.sqrt spawnScale
        let dist := rng.krakenDistRoll * sfq
        let kship : Ship :=
          { coords := (s3.coords.1 + dist * Real.cos rng.krakenAngle,
                       s3.coords.2 + dist * Real.sin rng.krakenAngle)
            velocity := 0
            angle := 0
            helm := 0
            power := 0
            stats := ShipStats.new 8 (60 * sfq) (60 * sfq) (3000 * spawnScale) 0 0 1000 0 0
              2.2 (100 * sfq) (100 * sfq) 0.5 1.5 []
            sunk := false
            submerged := false
            smoke := false
            respawn_cooldown := RESPAWN_COOLDOWN }
        if radius < kship.distance_from_origin then
          ({ s3 with velocity := 0 }, mineRes.2, some kship)
        else (s3, mineRes.2, none)
      else (s3, mineRes.2, none)
  else (s, false, none)

/-- C7: for a non-sunk ship beyond the border (distance `d > radius`), with
the mine and kraken `gen_bool` rolls coming up false, the tick subtracts
`dps * s * dt` from health where `s = (d - radius)/(d - radius + scale)`;
if that damage sinks the ship it is marked sunk with its coordinates left
alone, and otherwise the coordinates are pulled toward the origin by the
factor `intensity * s / d` per unit time exactly when the ship is mobile
(not immobilised by the boss); a ship at distance `≤ radius` is wholly
unaffected. -/
theorem c7_ocean_hazard_spec (data : OceanData) (radius dt : ℝ)
    (mobile ka : Bool) (kc : ℝ) (s : Ship) (rng : OceanRng)
    (hs : s.sunk = false) (hmine : rng.mineTrig = false) (hkr : rng.krakenTrig = false) :
    (s.distance_from_origin ≤ radius →
      oceanBorder data radius dt mobile ka kc s rng = (s, false, none)) ∧
    (radius < s.distance_from_origin →
      (oceanBorder data radius dt mobile ka kc s rng).1.stats.health =
        s.stats.health - data.dps * ((s.distance_from_origin - radius) /
          (s.distance_from_origin - radius + data.scale)) * dt ∧
      (s.stats.health - data.dps * ((s.distance_from_origin - radius) /
          (s.distance_from_origin - radius + data.scale)) * dt ≤ 0 →
        (oceanBorder data radius dt mobile ka kc s rng).1.coords = s.coords ∧
        (oceanBorder data radius dt mobile ka kc s rng).1.sunk = true ∧
        (oceanBorder data radius dt mobile ka kc s rng).2.1 = true) ∧
      (0 < s.stats.health - data.dps * ((s.distance_from_origin - radius) /
          (s.distance_from_origin - radius + data.scale)) * dt →
        (oceanBorder data radius dt mobile ka kc s rng).1.sunk = false ∧
        (oceanBorder data radius dt mobile ka kc s rng).2.1 = false ∧
        (mobile = true →
          (oceanBorder data radius dt mobile ka kc s rng).1.coords =
            (s.coords.1 - s.coords.1 * (data.intensity *
                ((s.distance_from_origin - radius) /
                  (s.distance_from_origin - radius + data.scale)) /
                s.distance_from_origin) * dt,
             s.coords.2 - s.coords.2 * (data.intensity *
                ((s.distance_from_origin - radius) /
                  (s.distance_from_origin - radius + data.scale)) /
                s.distance_from_origin) * dt)) ∧
        (mobile = false →
          (oceanBorder data radius dt mobile ka kc s rng).1.coords = s.coords))) := by
  constructor
  · intro hle
    have h : ¬ (radius < s.distance_from_origin) := not_lt.mpr hle
    simp only [oceanBorder, h, if_false]
  · intro hd
    by_cases hsank : s.stats.health ≤ data.dps * ((s.distance_from_origin - radius) /
        (s.distance_from_origin - radius + data.scale)) * dt
    · have hsub : s.stats.health - data.dps * ((s.distance_from_origin - radius) /
          (s.distance_from_origin - radius + data.scale)) * dt ≤ 0 := by linarith
      refine ⟨?_, fun _ => ⟨?_, ?_, ?_⟩, fun hpos => absurd hpos (not_lt.mpr hsub)⟩ <;>
        simp [oceanBorder, hd, Ship.damage, hsank]
    · have hsub : 0 < s.stats.health - data.dps * ((s.distance_from_origin - radius) /
          (s.distance_from_origin - radius + data.scale)) * dt := by
        push_neg at hsank; linarith
      cases mobile with
      | true =>
        refine ⟨?_, fun hle => absurd hle (not_le.mpr hsub),
          fun _ => ⟨?_, ?_, fun _ => ?_, fun hmob => absurd hmob (by decide)⟩⟩ <;>
          simp [oceanBorder, hd, Ship.damage, hsank, hs, hmine, hkr]
      | false =>
        refine ⟨?_, fun hle => absurd hle (not_le.mpr hsub),
          fun _ => ⟨?_, ?_, fun hmob => absurd hmob (by decide), fun _ => ?_⟩⟩ <;>
          simp [oceanBorder, hd, Ship.damage, hsank, hs, hmine, hkr]

/-- A concrete ship 500 m beyond the 2000 m border, for the hazard witness. -/
def shipC7 : Ship := { shipW with coords := (0, 2500) }

/-- Witness for `c7_ocean_hazard_spec`: the ship at (0, 2500) under the
configured ocean takes `5 * 0.5 * dt` damage and is recentred. -/
theorem c7_ocean_hazard_spec_witness :
    (shipC7.sunk = false ∧ (2000 : ℝ) < shipC7.distance_from_origin) ∧
    (oceanBorder midwayOcean 2000 1 true true 0 shipC7
      { mineTrig := false, mineLenOff := 0, mineBeamOff := 0, mineDmgRoll := 0,
        krakenTrig := false, krakenAngle := 0, krakenDistRoll := 0 }).1.stats.health =
      shipC7.stats.health - midwayOcean.dps * ((shipC7.distance_from_origin - 2000) /
        (shipC7.distance_from_origin - 2000 + midwayOcean.scale)) * 1 := by
  have hdist : shipC7.distance_from_origin = 2500 := by
    have h : ((0 : ℝ) ^ 2 + (2500 : ℝ) ^ 2) = 2500 ^ 2 := by norm_num
    simp only [Ship.distance_from_origin, hypot, shipC7, shipW]
    rw [h, Real.sqrt_sq (by norm_num : (0 : ℝ) ≤ 2500)]
  have hd : (2000 : ℝ) < shipC7.distance_from_origin := by rw [hdist]; norm_num
  exact ⟨⟨rfl, hd⟩,
    ((c7_ocean_hazard_spec midwayOcean 2000 1 true true 0 shipC7 _ rfl rfl rfl).2 hd).1⟩

/-! ### Zero-throttle drag behaviour of `Ship::step` -/

/-- With zero throttle and forward velocity the discriminant is negative and
the trigonometric branch of the cubic solver returns the current velocity
itself (`q = 0`, so the branch collapses to `2|v|/√3 · cos(π/6) = |v|`). -/
theorem vOut_zero_power (s : Ship) (hp : s.power = 0) (hv : 0 < s.velocity) :
    s.vOut = s.velocity := by
  have hq : s.current_power = 0 := by simp [Ship.current_power, hp]
  have hsd : (s.current_power / s.stats.screw_area) ^ 2 - s.velocity ^ 6 / 27 < 0 := by
    rw [hq, zero_div]
    have h6 : 0 < s.velocity ^ 6 := by positivity
    nlinarith
  simp only [Ship.vOut]
  rw [if_pos hsd, hq, zero_div]
  rw [abs_of_pos hv]
  simp only [abs_zero, zero_mul, zero_div, Real.arccos_zero]
  have hpi : π / 2 / 3 = π / 6 := by ring
  rw [hpi, Real.cos_pi_div_six]
  have h0 : ¬ ((0 : ℝ) < 0) := lt_irrefl 0
  rw [copysign, if_neg h0]
  have hpos : 0 < 2 * s.velocity / Real.sqrt 3 := by positivity
  rw [abs_of_pos hpos]
  have h3 : Real.sqrt 3 ≠ 0 := by positivity
  field_simp

/-- With zero throttle and forward velocity the screw produces no thrust. -/
theorem thrust_zero_power (s : Ship) (hp : s.power = 0) (hv : 0 < s.velocity) :
    s.thrust = 0 := by
  simp [Ship.thrust, vOut_zero_power s hp hv]

/-- With zero throttle and forward velocity, one step changes the velocity
by exactly the (explicit-Euler) drag impulse. -/
theorem step_velocity_zero_power (s : Ship) (dt : ℝ) (hp : s.power = 0)
    (hv : 0 < s.velocity) :
    (Ship.step s dt).velocity = s.velocity - s.rTotal * dt / s.current_mass := by
  simp only [Ship.step]
  rw [thrust_zero_power s hp hv]
  ring

/-- The hull resistance is non-negative for forward velocity and physically
sensible (non-negative) drag coefficients. -/
theorem rTotal_nonneg (s : Ship) (hv : 0 < s.velocity) (hk : 0 ≤ s.stats.k)
    (hf : 0 ≤ s.stats.froude_scale_factor) (ha : 0 ≤ s.surface_area_val) :
    0 ≤ s.rTotal := by
  have hcf : 0 ≤ s.cF := div_nonneg (by norm_num) (sq_nonneg _)
  have hbase : 0 ≤ s.cF * (1 + s.stats.k) := mul_nonneg hcf (by linarith)
  have hct : 0 ≤ s.cTotal := by
    simp only [Ship.cTotal]
    split
    · exact hbase
    · have hwave : 0 ≤ s.stats.froude_scale_factor *
          (s.velocity / Real.sqrt (GRAVITY * s.stats.length)) ^ 6 :=
        mul_nonneg hf (by positivity)
      linarith
  simp only [Ship.rTotal]
  exact mul_nonneg (mul_nonneg (mul_nonneg (mul_nonneg hct (by norm_num)) hv.le)
    (abs_nonneg _)) ha

/-- A concrete submerged ship whose drag evaluates exactly: at speed 1 its
Reynolds number is the exact power 10⁸, so `log10` is exact and the drag
coefficient is the rational 1/480. -/
def stats9 : ShipStats :=
  { texture := 0
    length := 100
    beam := 10
    mass := .surface 1
    health := 1000
    power := .surface 0
    k := 0
    surface_area := .surface 480
    screw_area := 1
    froude_scale_factor := 1
    turning_circle := 1
    gun_damage := 0
    gun_range := 0
    gun_reload_lo := 1
    gun_reload_hi := 2
    cooldown := 0
    actions := [] }

/-- The concrete coasting ship for the step theorems: zero throttle,
velocity 1, submerged (no wave-resistance term). -/
def ship9 : Ship :=
  { coords := (0, 0)
    velocity := 1
    angle := 0
    helm := 0
    power := 0
    stats := stats9
    sunk := false
    submerged := true
    smoke := false
    respawn_cooldown := 120 }

theorem ship9_reynolds : ship9.reynolds = 100000000 := by
  simp only [Ship.reynolds, ship9, stats9, WATER_VISCOSITY]
  norm_num

theorem ship9_cF : ship9.cF = 1 / 480 := by
  have hlog : Real.logb 10 ship9.reynolds = 8 := by
    rw [ship9_reynolds]
    have h8 : (100000000 : ℝ) = 10 ^ (8 : ℕ) := by norm_num
    rw [h8, Real.logb_pow, Real.logb_self_eq_one (by norm_num : (1 : ℝ) < 10)]
    norm_num
  simp only [Ship.cF, hlog]
  norm_num

theorem ship9_rTotal : ship9.rTotal = 1 / 2 := by
  have hct : ship9.cTotal = 1 / 480 := by
    simp only [Ship.cTotal, ship9_cF]
    norm_num [ship9, stats9]
  simp only [Ship.rTotal, hct, Ship.surface_area_val]
  norm_num [ship9, stats9, Variable.get_value]

theorem ship9_mass : ship9.current_mass = 1 := by
  simp [Ship.current_mass, ship9, stats9, Variable.get_value]

/-- C9 counterexample: the claim asserts speed is non-increasing under zero
throttle for *every* positive `delta_t`, but the velocity update is explicit
Euler (src/midway/src/main.rs:128): a fixed drag impulse `r_total·Δt/m` is
applied wholesale, so a large `delta_t` overshoots through zero — this
coasting ship at speed 1 ends one `step(8.0)` at velocity −3, speed 3 > 1. -/
theorem c9_step_overshoot_counterexample :
    ship9.power = 0 ∧ (0 : ℝ) < 8 ∧
    (Ship.step ship9 8).velocity = -3 ∧
    |ship9.velocity| < |(Ship.step ship9 8).velocity| := by
  have hv : (0 : ℝ) < ship9.velocity := by norm_num [ship9]
  have hvel : (Ship.step ship9 8).velocity = -3 := by
    rw [step_velocity_zero_power ship9 8 rfl hv, ship9_rTotal, ship9_mass]
    norm_num [ship9]
  refine ⟨rfl, by norm_num, hvel, ?_⟩
  rw [hvel]
  norm_num [ship9]

/-- C9 (amended): with zero throttle and forward velocity the step applies
pure drag (the screw contributes no thrust), and the speed is non-increasing
for every `delta_t` whose drag impulse `r_total·Δt/m` does not exceed twice
the current speed — in particular for all small `delta_t`; beyond that bound
the explicit-Euler update can flip the sign past zero and increase the
speed, as the counterexample shows. -/
theorem c9_zero_throttle_decay (s : Ship) (dt : ℝ)
    (hp : s.power = 0) (hv : 0 < s.velocity) (hdt : 0 ≤ dt)
    (hk : 0 ≤ s.stats.k) (hf : 0 ≤ s.stats.froude_scale_factor)
    (ha : 0 ≤ s.surface_area_val) (hm : 0 < s.current_mass)
    (himp : s.rTotal * dt / s.current_mass ≤ 2 * s.velocity) :
    |(Ship.step s dt).velocity| ≤ |s.velocity| := by
  have hvel := step_velocity_zero_power s dt hp hv
  have hx : 0 ≤ s.rTotal * dt / s.current_mass :=
    div_nonneg (mul_nonneg (rTotal_nonneg s hv hk hf ha) hdt) hm.le
  rw [hvel, abs_of_pos hv, abs_le]
  constructor <;> linarith

/-- Witness for `c9_zero_throttle_decay`: the coasting ship with `Δt = 1`
(drag impulse 1/2 ≤ 2). -/
theorem c9_zero_throttle_decay_witness :
    (ship9.power = 0 ∧ 0 < ship9.velocity ∧ (0 : ℝ) ≤ 1 ∧
      0 ≤ ship9.stats.k ∧ 0 ≤ ship9.stats.froude_scale_factor ∧
      0 ≤ ship9.surface_area_val ∧ 0 < ship9.current_mass ∧
      ship9.rTotal * 1 / ship9.current_mass ≤ 2 * ship9.velocity) ∧
    |(Ship.step ship9 1).velocity| ≤ |ship9.velocity| := by
  have h1 : ship9.power = 0 := rfl
  have h2 : (0 : ℝ) < ship9.velocity := by norm_num [ship9]
  have h3 : (0 : ℝ) ≤ 1 := by norm_num
  have h4 : 0 ≤ ship9.stats.k := by norm_num [ship9, stats9]
  have h5 : 0 ≤ ship9.stats.froude_scale_factor := by norm_num [ship9, stats9]
  have h6 : 0 ≤ ship9.surface_area_val := by
    norm_num [Ship.surface_area_val, ship9, stats9, Variable.get_value]
  have h7 : 0 < ship9.current_mass := by rw [ship9_mass]; norm_num
  have h8 : ship9.rTotal * 1 / ship9.current_mass ≤ 2 * ship9.velocity := by
    rw [ship9_rTotal, ship9_mass]
    norm_num [ship9]
  exact ⟨⟨h1, h2, h3, h4, h5, h6, h7, h8⟩,
    c9_zero_throttle_decay ship9 1 h1 h2 h3 h4 h5 h6 h7 h8⟩

end Midway
